import Mathlib

/-
Verification of the rate-limited request scheduler in game/rate_limiter.py
(class RateLimiter).  The Python code is shallowly embedded: the mutable
attributes of a RateLimiter instance become a record threaded explicitly,
delays and the backoff multiplier are modelled as exact rationals, and the
asynchronous retry loop of execute_with_retry becomes a structurally
recursive function over the remaining attempt budget that also records the
sleeps it performs and the number of times the operation was invoked.
-/

namespace RateLimiterSpec

/-- Mutable rate-limit attributes of a RateLimiter instance, as set up in
RateLimiter.__init__ and mutated only by handle_response.  Delays and rates
are exact rationals; reset_time stores the ISO timestamp string carried by
the throttling payload. -/
structure RLState where
  burst_limit : Nat
  rate_per_second : ℚ
  min_request_interval : ℚ
  remaining_requests : Nat
  reset_time : Option String
  backoff_multiplier : ℚ
deriving DecidableEq, Repr

/-- The defaults from RateLimiter.__init__: burst 30, 2 requests per second,
interval 1/2, 30 remaining, no reset time, multiplier 1.0. -/
def initState : RLState :=
  { burst_limit := 30
    rate_per_second := 2
    min_request_interval := 1 / 2
    remaining_requests := 30
    reset_time := none
    backoff_multiplier := 1 }

/-- The data object of the structured 429 error envelope,
error_data.get('error').get('data') in handle_response.  Each field is
optional: a field absent from the JSON payload is none, matching what
dict.get returns before a default is applied. -/
structure RateData where
  limitBurst : Option Nat
  limitPerSecond : Option ℚ
  remaining : Option Nat
  reset : Option String
  retryAfter : Option ℚ
deriving DecidableEq, Repr

/-- A response as consumed by the scheduler: a status code plus the result
of parsing its body as the structured throttling envelope.  rateData = none
models a body that is absent or malformed (json.loads raises), while
some d models a successfully parsed envelope whose data object is d. -/
structure Response where
  status_code : Nat
  rateData : Option RateData
deriving DecidableEq, Repr

/-- RateLimiter.handle_response: on a 429, parse the envelope and update the
limits (dict.get defaults: previous value for limitBurst/limitPerSecond,
0 for remaining, 1 for retryAfter; reset only when present and non-empty),
return retryAfter times the pre-growth multiplier and grow the multiplier to
min(multiplier * 1.5, 5.0).  On a parse failure return a flat 1.0 delay.
On any other status reset the multiplier to 1.0 and return no delay. -/
def handle_response (s : RLState) (r : Response) : RLState × Option ℚ :=
  if r.status_code = 429 then
    match r.rateData with
    | some d =>
      ({ s with
          burst_limit := d.limitBurst.getD s.burst_limit
          rate_per_second := d.limitPerSecond.getD s.rate_per_second
          remaining_requests := d.remaining.getD 0
          reset_time :=
            match d.reset with
            | some rs => if rs = "" then s.reset_time else some rs
            | none => s.reset_time
          backoff_multiplier := min (s.backoff_multiplier * 1.5) 5 },
        some (d.retryAfter.getD 1 * s.backoff_multiplier))
    | none => (s, some 1)
  else
    ({ s with backoff_multiplier := 1 }, none)

/-- Python truthiness of the Optional[float] returned by handle_response:
None and 0.0 are falsy, every other value is truthy. -/
def truthy : Option ℚ → Bool
  | none => false
  | some d => decide (d ≠ 0)

/-- Outcome of one queued invocation of the operation inside
execute_with_retry: either queue_request re-raised an exception (carrying
its message) or it resolved to a response. -/
inductive AttemptOutcome where
  | exn : String → AttemptOutcome
  | resp : Response → AttemptOutcome
deriving DecidableEq, Repr

/-- A terminal error raised by execute_with_retry: its message and the
message of the chained cause (raise ... from last_error), if any. -/
structure RetryError where
  message : String
  cause : Option String
deriving DecidableEq, Repr

/-- How an execute_with_retry call resolves: an ordinary returned response,
or a raised terminal error. -/
inductive RetryResult where
  | ok : Response → RetryResult
  | raised : RetryError → RetryResult
deriving DecidableEq, Repr

/-- Observable outcome of a whole execute_with_retry call: the final
rate-limit state, the returned-or-raised result, the sleeps performed in
order, and how many times the operation was invoked. -/
structure RunResult where
  state : RLState
  result : RetryResult
  sleeps : List ℚ
  invocations : Nat
deriving DecidableEq, Repr

/-- The code after the while loop of execute_with_retry (attempts
exhausted): raise chaining last_error if set, else return last_response if
set, else raise with no cause. -/
def exhaust (tn : String) (mr : Nat) (st : RLState)
    (lastErr : Option String) (lastResp : Option Response) : RunResult :=
  match lastErr with
  | some e =>
    ⟨st, RetryResult.raised
        ⟨tn ++ " failed after " ++ toString mr ++ " attempts", some e⟩, [], 0⟩
  | none =>
    match lastResp with
    | some r => ⟨st, RetryResult.ok r, [], 0⟩
    | none =>
      ⟨st, RetryResult.raised
          ⟨tn ++ " failed after " ++ toString mr ++ " attempts with no response",
            none⟩, [], 0⟩

/-- Prepend one performed sleep and one operation invocation to the record
of the rest of the run. -/
def addStep (d : ℚ) (rr : RunResult) : RunResult :=
  ⟨rr.state, rr.result, d :: rr.sleeps, rr.invocations + 1⟩

/-- The while loop of execute_with_retry, recursing on the remaining budget
fuel = max_retries - attempt.  One iteration: invoke the operation through
the queue (outcome given by op attempt); on an exception record it and sleep
2^attempt; on a response run handle_response, then either sleep the returned
truthy delay and retry, return a 200/201 immediately, sleep 2^attempt and
retry on 5xx/429, or return any other response immediately. -/
def retryLoop (op : Nat → AttemptOutcome) (tn : String) (mr : Nat) :
    Nat → Nat → RLState → Option String → Option Response → RunResult
  | 0, _attempt, st, lastErr, lastResp => exhaust tn mr st lastErr lastResp
  | fuel + 1, attempt, st, lastErr, lastResp =>
    match op attempt with
    | AttemptOutcome.exn e =>
      addStep ((2 : ℚ) ^ attempt)
        (retryLoop op tn mr fuel (attempt + 1) st (some e) lastResp)
    | AttemptOutcome.resp r =>
      if truthy (handle_response st r).2 then
        addStep ((handle_response st r).2.getD 0)
          (retryLoop op tn mr fuel (attempt + 1) (handle_response st r).1
            lastErr (some r))
      else if r.status_code = 200 ∨ r.status_code = 201 then
        ⟨(handle_response st r).1, RetryResult.ok r, [], 1⟩
      else if (500 ≤ r.status_code ∧ r.status_code < 600) ∨ r.status_code = 429 then
        addStep ((2 : ℚ) ^ attempt)
          (retryLoop op tn mr fuel (attempt + 1) (handle_response st r).1
            lastErr (some r))
      else
        ⟨(handle_response st r).1, RetryResult.ok r, [], 1⟩

/-- RateLimiter.execute_with_retry(callback, task_name, max_retries) from a
given rate-limit state, with the n-th queued invocation of the callback
resolving as op n. -/
def execute_with_retry (op : Nat → AttemptOutcome) (tn : String) (mr : Nat)
    (st : RLState) : RunResult :=
  retryLoop op tn mr mr 0 st none none

/-- State of the asyncio.Future paired with a queued call: pending until
the queue processor resolves it, resolved by set_result/set_exception, or
cancelled by future.cancel(). -/
inductive FState where
  | pending : FState
  | resolved : FState
  | cancelled : FState
deriving DecidableEq, Repr

/-- The queueing side of a RateLimiter instance: the _running flag, the
FIFO _request_queue (each entry a call identifier paired with the state of
its future), the call the single consumer loop is currently awaiting (none
when the loop sits at _request_queue.get), and the identifiers of calls it
has dispatched, in dispatch order. -/
structure Sched where
  running : Bool
  queue : List (Nat × FState)
  inFlight : Option Nat
  dispatched : List Nat
deriving DecidableEq, Repr

/-- The scheduler state right after __init__: running, empty queue, no call
in flight, nothing dispatched. -/
def schedInit : Sched :=
  { running := true, queue := [], inFlight := none, dispatched := [] }

/-- RateLimiter.queue_request: raise RuntimeError when the limiter is not
running, otherwise append the call with a fresh pending future to the FIFO
queue.  The Except models the raise happening before anything is enqueued. -/
def queue_request (s : Sched) (c : Nat) : Except String Sched :=
  if s.running then
    Except.ok { s with queue := s.queue ++ [(c, FState.pending)] }
  else
    Except.error ("Rate limiter is not running")

/-- The drain step of RateLimiter.cleanup on one queue entry: a future that
is not done is cancelled, a done one is left as it is. -/
def cancelIfNotDone : FState → FState
  | FState.pending => FState.cancelled
  | f => f

/-- RateLimiter.cleanup: clear _running, cancel the consumer task (so no
call stays in flight), and drain the queue, cancelling every not-done
future.  The second component is the drained queue entries with their final
future states, as the awaiting callers observe them. -/
def cleanup (s : Sched) : Sched × List (Nat × FState) :=
  ({ s with running := false, inFlight := none, queue := [] },
    s.queue.map (fun p => (p.1, cancelIfNotDone p.2)))

/-- Events of the scheduler: a caller submitting a call through
queue_request, the single consumer loop taking the queue head and invoking
it (only possible while running and idle), the awaited invocation
finishing, and cleanup being called. -/
inductive SEvent where
  | submit : Nat → SEvent
  | startDispatch : SEvent
  | finishDispatch : SEvent
  | stop : SEvent
deriving DecidableEq, Repr

/-- One step of the scheduler.  submit applies queue_request (a raised
RuntimeError leaves the state unchanged); startDispatch is the consumer
loop of _process_queue removing the queue head and invoking its callback,
possible only while running and with no call already in flight — the loop
awaits each callback before taking the next entry; finishDispatch is that
await completing; stop is cleanup. -/
def sstep (s : Sched) (e : SEvent) : Sched :=
  match e with
  | SEvent.submit c =>
    match queue_request s c with
    | Except.ok s2 => s2
    | Except.error _ => s
  | SEvent.startDispatch =>
    if s.running then
      match s.inFlight, s.queue with
      | none, (c, _f) :: rest =>
        { s with queue := rest, inFlight := some c,
                 dispatched := s.dispatched ++ [c] }
      | _, _ => s
    else s
  | SEvent.finishDispatch =>
    match s.inFlight with
    | some _ => { s with inFlight := none }
    | none => s
  | SEvent.stop => (cleanup s).1

/-- Run the scheduler from __init__ through a sequence of events. -/
def schedRun (es : List SEvent) : Sched :=
  es.foldl sstep schedInit

/-- The identifiers submitted by a sequence of events, in submission
order. -/
def submittedCalls : List SEvent → List Nat
  | [] => []
  | SEvent.submit c :: es => c :: submittedCalls es
  | _ :: es => submittedCalls es

/-- Call identifiers still waiting in the queue, in queue order. -/
def queuedIds (s : Sched) : List Nat :=
  s.queue.map Prod.fst

/-- Fold handle_response over a list of responses starting from the
__init__ state, keeping only the state: the rate-limit state reachable
after the scheduler has classified that sequence of responses. -/
def runResponses (rs : List Response) : RLState :=
  rs.foldl (fun s r => (handle_response s r).1) initState

/-- A 429 whose parsed payload carries only retryAfter = 1.5, as in the
throttle-backoff-growth scenario of the test suite. -/
def throttled429 : Response :=
  ⟨429, some ⟨none, none, none, none, some 1.5⟩⟩

/-- A 429 whose body is absent or malformed: the envelope fails to parse. -/
def malformed429 : Response :=
  ⟨429, none⟩

/-- A 429 whose body parses but whose data object carries no fields at
all. -/
def emptyData429 : Response :=
  ⟨429, some ⟨none, none, none, none, none⟩⟩

/-- An operation every invocation of which raises, as in the
retry-exhaustion test of the test suite. -/
def alwaysRaise : Nat → AttemptOutcome :=
  fun _ => AttemptOutcome.exn ("API Error")

/-- An operation every invocation of which returns a bare 503 server
error. -/
def always503 : Nat → AttemptOutcome :=
  fun _ => AttemptOutcome.resp ⟨503, none⟩

/-- An operation every invocation of which returns a bare 200 success. -/
def always200 : Nat → AttemptOutcome :=
  fun _ => AttemptOutcome.resp ⟨200, none⟩

/-- A running scheduler holding one queued, never-dispatched call whose
future is still pending. -/
def schedWithPending : Sched :=
  { running := true, queue := [(7, FState.pending)], inFlight := none,
    dispatched := [] }

/-- Two submissions followed by the consumer dispatching both, one at a
time. -/
def fifoEvents : List SEvent :=
  [SEvent.submit 1, SEvent.submit 2, SEvent.startDispatch,
    SEvent.finishDispatch, SEvent.startDispatch, SEvent.finishDispatch]

/-- A rate-limit state whose backoff multiplier has already grown to
2.0. -/
def stateMult2 : RLState :=
  { initState with backoff_multiplier := 2 }

/-- The parsed payload of the mock 429 used by the test suite: burst 10,
2 per second, 0 remaining, a reset timestamp, retryAfter 1.5. -/
def testRateData : RateData :=
  ⟨some 10, some 2, some 0, some ("2024-01-01T00:00:00Z"), some 1.5⟩

/-- One handle_response call keeps the backoff multiplier inside [1, 5]
whenever it was there before: a 429 with a parsed payload moves it to
min(multiplier * 1.5, 5), a parse failure keeps it, anything else resets
it to 1. -/
theorem handle_response_mult_bounds (s : RLState) (r : Response)
    (h1 : 1 ≤ s.backoff_multiplier) (h5 : s.backoff_multiplier ≤ 5) :
    1 ≤ (handle_response s r).1.backoff_multiplier ∧
      (handle_response s r).1.backoff_multiplier ≤ 5 := by
  by_cases h : r.status_code = 429
  · cases hd : r.rateData with
    | none =>
      simp only [handle_response, h, hd, if_pos]
      exact ⟨h1, h5⟩
    | some d =>
      simp only [handle_response, h, hd, if_pos]
      exact ⟨le_min (by linarith) (by norm_num), min_le_right _ _⟩
  · have hm : (handle_response s r).1.backoff_multiplier = 1 := by
      simp [handle_response, h]
    rw [hm]
    norm_num

/-- Folding handle_response over any responses keeps the multiplier inside
[1, 5] from any state where it already is. -/
theorem foldl_mult_bounds (rs : List Response) :
    ∀ s : RLState, 1 ≤ s.backoff_multiplier → s.backoff_multiplier ≤ 5 →
      1 ≤ (rs.foldl (fun s r => (handle_response s r).1) s).backoff_multiplier ∧
        (rs.foldl (fun s r => (handle_response s r).1) s).backoff_multiplier ≤ 5 := by
  induction rs with
  | nil =>
    intro s h1 h5
    exact ⟨h1, h5⟩
  | cons r rs ih =>
    intro s h1 h5
    obtain ⟨a, b⟩ := handle_response_mult_bounds s r h1 h5
    simp only [List.foldl_cons]
    exact ih _ a b

/-- C7: handle_response on any response whose status is not 429 resets the
backoff multiplier to exactly 1.0 and returns no wait, whether or not the
status is an error; and in every state reachable from the initial state
through any sequence of handle_response calls, the multiplier stays within
[1.0, 5.0]. -/
theorem backoff_reset_and_bounds :
    (∀ (s : RLState) (r : Response), r.status_code ≠ 429 →
      handle_response s r = ({ s with backoff_multiplier := 1 }, none)) ∧
    ∀ rs : List Response,
      1 ≤ (runResponses rs).backoff_multiplier ∧
        (runResponses rs).backoff_multiplier ≤ 5 := by
  constructor
  · intro s r h
    simp [handle_response, h]
  · intro rs
    have h := foldl_mult_bounds rs initState (by norm_num [initState])
      (by norm_num [initState])
    simpa [runResponses] using h

/-- Witness for C7: a concrete 200 response resets the multiplier, and the
state reached through one concrete 429 stays inside the bounds. -/
theorem backoff_reset_and_bounds_witness :
    handle_response initState ⟨200, none⟩ =
        ({ initState with backoff_multiplier := 1 }, none) ∧
      (1 ≤ (runResponses [throttled429]).backoff_multiplier ∧
        (runResponses [throttled429]).backoff_multiplier ≤ 5) :=
  ⟨backoff_reset_and_bounds.1 initState ⟨200, none⟩ (by decide),
    backoff_reset_and_bounds.2 [throttled429]⟩

/-- C6: from multiplier 1.0, a 429 carrying retryAfter = 1.5 yields a wait
of exactly 1.5 s and leaves the multiplier at 1.5; an immediately following
identical 429 yields a wait of exactly 1.5 * 1.5 = 2.25 s and leaves the
multiplier at 2.25. -/
theorem backoff_growth_scenario :
    (handle_response initState throttled429).2 = some 1.5 ∧
    (handle_response initState throttled429).1.backoff_multiplier = 1.5 ∧
    (handle_response (handle_response initState throttled429).1
        throttled429).2 = some 2.25 ∧
    (handle_response (handle_response initState throttled429).1
        throttled429).1.backoff_multiplier = 2.25 := by
  norm_num [handle_response, throttled429, initState, min_def]

/-- C5 fails as stated: with the multiplier already at 2.0, a malformed 429
returns a flat 1.0 s wait rather than 1.0 times the multiplier, and the
multiplier stays at 2.0 instead of growing to min(2.0 * 1.5, 5.0). -/
theorem malformed_429_cex :
    (handle_response stateMult2 malformed429).2 ≠
        some (1 * stateMult2.backoff_multiplier) ∧
      (handle_response stateMult2 malformed429).1.backoff_multiplier ≠
        min (stateMult2.backoff_multiplier * 1.5) 5 := by
  constructor
  · norm_num [handle_response, malformed429, stateMult2, initState]
  · norm_num [handle_response, malformed429, stateMult2, initState, min_def]

/-- C5 amended: on a 429 whose body is malformed or absent, handle_response
does not raise, leaves the whole rate-limit state unchanged (burst, rate,
remaining, reset and also the backoff multiplier, which is neither applied
nor grown) and returns a flat wait of exactly 1.0 second. -/
theorem malformed_429_default_delay (s : RLState) (r : Response)
    (h429 : r.status_code = 429) (hbody : r.rateData = none) :
    handle_response s r = (s, some 1) := by
  simp [handle_response, h429, hbody]

/-- Witness for C5 at the concrete malformed 429 and multiplier 2.0. -/
theorem malformed_429_default_delay_witness :
    handle_response stateMult2 malformed429 = (stateMult2, some 1) :=
  malformed_429_default_delay stateMult2 malformed429 (by decide) rfl

/-- C4 fails as stated: a parsed 429 payload with no remaining field sets
remaining_requests to 0, not to its previous value of 30. -/
theorem absent_remaining_cex :
    (handle_response initState emptyData429).1.remaining_requests ≠
      initState.remaining_requests := by decide

/-- C4 amended: on a parsed 429 payload, absent limitBurst, limitPerSecond
and reset fields keep the previously known values and an absent retryAfter
defaults to 1.0 second, but an absent remaining field sets
remaining_requests to 0; every present field is copied into the state
(reset when non-empty), and the returned wait is retryAfter times the
pre-growth multiplier. -/
theorem throttle_payload_fields (s : RLState) (d : RateData) :
    ((d.limitBurst = none →
        (handle_response s ⟨429, some d⟩).1.burst_limit = s.burst_limit) ∧
      ∀ v, d.limitBurst = some v →
        (handle_response s ⟨429, some d⟩).1.burst_limit = v) ∧
    ((d.limitPerSecond = none →
        (handle_response s ⟨429, some d⟩).1.rate_per_second =
          s.rate_per_second) ∧
      ∀ v, d.limitPerSecond = some v →
        (handle_response s ⟨429, some d⟩).1.rate_per_second = v) ∧
    ((d.remaining = none →
        (handle_response s ⟨429, some d⟩).1.remaining_requests = 0) ∧
      ∀ v, d.remaining = some v →
        (handle_response s ⟨429, some d⟩).1.remaining_requests = v) ∧
    ((d.reset = none →
        (handle_response s ⟨429, some d⟩).1.reset_time = s.reset_time) ∧
      ∀ v, d.reset = some v → v ≠ "" →
        (handle_response s ⟨429, some d⟩).1.reset_time = some v) ∧
    ((d.retryAfter = none →
        (handle_response s ⟨429, some d⟩).2 = some s.backoff_multiplier) ∧
      ∀ v, d.retryAfter = some v →
        (handle_response s ⟨429, some d⟩).2 =
          some (v * s.backoff_multiplier)) := by
  refine ⟨⟨fun h => ?_, fun v h => ?_⟩, ⟨fun h => ?_, fun v h => ?_⟩,
    ⟨fun h => ?_, fun v h => ?_⟩, ⟨fun h => ?_, fun v h hv => ?_⟩,
    ⟨fun h => ?_, fun v h => ?_⟩⟩ <;>
    simp [handle_response, h]
  exact fun h2 => absurd h2 hv

/-- Witness for C4: the all-absent payload keeps burst and reset, zeroes
remaining and defaults retryAfter, while the fully populated test payload
is copied in. -/
theorem throttle_payload_fields_witness :
    (handle_response initState ⟨429, some ⟨none, none, none, none, none⟩⟩).1.burst_limit
        = initState.burst_limit ∧
      (handle_response initState ⟨429, some ⟨none, none, none, none, none⟩⟩).1.remaining_requests
        = 0 ∧
      (handle_response initState ⟨429, some ⟨none, none, none, none, none⟩⟩).1.reset_time
        = initState.reset_time ∧
      (handle_response initState ⟨429, some ⟨none, none, none, none, none⟩⟩).2
        = some initState.backoff_multiplier ∧
      (handle_response initState ⟨429, some testRateData⟩).1.burst_limit = 10 ∧
      (handle_response initState ⟨429, some testRateData⟩).1.remaining_requests = 0 ∧
      (handle_response initState ⟨429, some testRateData⟩).1.reset_time
        = some ("2024-01-01T00:00:00Z") ∧
      (handle_response initState ⟨429, some testRateData⟩).2
        = some (1.5 * initState.backoff_multiplier) :=
  ⟨(throttle_payload_fields initState ⟨none, none, none, none, none⟩).1.1 rfl,
    (throttle_payload_fields initState ⟨none, none, none, none, none⟩).2.2.1.1 rfl,
    (throttle_payload_fields initState ⟨none, none, none, none, none⟩).2.2.2.1.1 rfl,
    (throttle_payload_fields initState ⟨none, none, none, none, none⟩).2.2.2.2.1 rfl,
    (throttle_payload_fields initState testRateData).1.2 10 rfl,
    (throttle_payload_fields initState testRateData).2.2.1.2 0 rfl,
    (throttle_payload_fields initState testRateData).2.2.2.1.2
      ("2024-01-01T00:00:00Z") rfl (by decide),
    (throttle_payload_fields initState testRateData).2.2.2.2.2 1.5 rfl⟩

/-- C3 fails as stated: with maxRetries = 0 the operation is never invoked,
not invoked exactly once. -/
theorem zero_max_retries_cex :
    (execute_with_retry always200 ("t") 0 initState).invocations ≠ 1 := by
  decide

/-- C3 amended: maxRetries = 0 performs zero attempts: the operation is
never invoked, no sleep happens, the state is untouched, and an error whose
message references taskName is raised with no chained cause. -/
theorem zero_max_retries_no_attempt (op : Nat → AttemptOutcome) (tn : String)
    (st : RLState) :
    execute_with_retry op tn 0 st =
      ⟨st, RetryResult.raised
          ⟨tn ++ " failed after " ++ toString 0 ++ " attempts with no response",
            none⟩, [], 0⟩ :=
  rfl

/-- C10: once cleanup has cleared the running flag, every queue_request
call raises RuntimeError at once; no successor state is produced, so
nothing is enqueued and the operation is never invoked. -/
theorem stopped_rejects_new_requests (s : Sched) (c : Nat) :
    queue_request (cleanup s).1 c =
      Except.error ("Rate limiter is not running") := by
  simp [queue_request, cleanup]

/-- One non-stop scheduler step keeps the consumer running and extends the
dispatched-then-queued call list by exactly the identifiers the step
submitted. -/
theorem sstep_no_stop (s : Sched) (e : SEvent) (hrun : s.running = true)
    (hne : e ≠ SEvent.stop) :
    (sstep s e).running = true ∧
      (sstep s e).dispatched ++ queuedIds (sstep s e) =
        s.dispatched ++ queuedIds s ++ submittedCalls [e] := by
  cases e with
  | submit c =>
    simp [sstep, queue_request, hrun, queuedIds, submittedCalls]
  | startDispatch =>
    cases hf : s.inFlight with
    | some x => simp [sstep, hrun, hf, submittedCalls]
    | none =>
      cases hq : s.queue with
      | nil => simp [sstep, hrun, hf, hq, submittedCalls, queuedIds]
      | cons p rest =>
        obtain ⟨a, f⟩ := p
        simp [sstep, hrun, hf, hq, submittedCalls, queuedIds]
  | finishDispatch =>
    cases hf : s.inFlight with
    | some x => simp [sstep, hf, submittedCalls, queuedIds, hrun]
    | none => simp [sstep, hf, submittedCalls, queuedIds, hrun]
  | stop => exact absurd rfl hne

/-- Over any stop-free event sequence the scheduler stays running and the
dispatched-then-queued call list equals the starting one extended by the
submissions of the sequence in order. -/
theorem fifo_eq_aux (es : List SEvent) :
    ∀ s : Sched, s.running = true → (∀ e ∈ es, e ≠ SEvent.stop) →
      (es.foldl sstep s).running = true ∧
        (es.foldl sstep s).dispatched ++ queuedIds (es.foldl sstep s) =
          s.dispatched ++ queuedIds s ++ submittedCalls es := by
  induction es with
  | nil =>
    intro s h _
    exact ⟨h, by simp [submittedCalls]⟩
  | cons e es ih =>
    intro s hrun hne
    obtain ⟨h1, h2⟩ := sstep_no_stop s e hrun (hne e (by simp))
    obtain ⟨h3, h4⟩ := ih (sstep s e) h1 (fun x hx => hne x (by simp [hx]))
    refine ⟨h3, ?_⟩
    calc ((e :: es).foldl sstep s).dispatched ++
          queuedIds ((e :: es).foldl sstep s)
        = (sstep s e).dispatched ++ queuedIds (sstep s e) ++
            submittedCalls es := h4
      _ = s.dispatched ++ queuedIds s ++ submittedCalls [e] ++
            submittedCalls es := by rw [h2]
      _ = s.dispatched ++ queuedIds s ++ submittedCalls (e :: es) := by
            cases e <;> simp [submittedCalls]

/-- C8: in any run without a stop event, the dispatched call identifiers
followed by the still-queued ones equal the submitted identifiers in
submission order — the single consumer removes and invokes pending calls
one at a time in FIFO order, so dispatch order equals submission order —
and at most one call is in flight at any instant. -/
theorem fifo_dispatch_order (es : List SEvent)
    (h : ∀ e ∈ es, e ≠ SEvent.stop) :
    (schedRun es).dispatched ++ queuedIds (schedRun es) = submittedCalls es ∧
      (schedRun es).inFlight.toList.length ≤ 1 := by
  constructor
  · have hx := fifo_eq_aux es schedInit rfl h
    simpa [schedRun, schedInit, queuedIds] using hx.2
  · cases hf : (schedRun es).inFlight <;> simp

/-- Witness for C8: two submissions dispatched one at a time come out in
submission order. -/
theorem fifo_dispatch_order_witness :
    (schedRun fifoEvents).dispatched ++ queuedIds (schedRun fifoEvents) =
        submittedCalls fifoEvents ∧
      (schedRun fifoEvents).inFlight.toList.length ≤ 1 :=
  fifo_dispatch_order fifoEvents (by decide)

/-- From a stopped scheduler with an empty queue, no sequence of events can
restart it, put anything in the queue, or dispatch anything. -/
theorem stopped_no_dispatch (es : List SEvent) :
    ∀ s : Sched, s.running = false → s.queue = [] →
      (es.foldl sstep s).running = false ∧ (es.foldl sstep s).queue = [] ∧
        (es.foldl sstep s).dispatched = s.dispatched := by
  induction es with
  | nil =>
    intro s h1 h2
    exact ⟨h1, h2, rfl⟩
  | cons e es ih =>
    intro s h1 h2
    have hstep : (sstep s e).running = false ∧ (sstep s e).queue = [] ∧
        (sstep s e).dispatched = s.dispatched := by
      cases e with
      | submit c => simp [sstep, queue_request, h1, h2]
      | startDispatch => simp [sstep, h1, h2]
      | finishDispatch => cases hf : s.inFlight <;> simp [sstep, hf, h1, h2]
      | stop => simp [sstep, cleanup, h1, h2]
    obtain ⟨a, b, c⟩ := hstep
    obtain ⟨d, e2, f⟩ := ih (sstep s e) a b
    exact ⟨d, e2, f.trans c⟩

/-- C9: after cleanup the scheduler is stopped with an empty queue, every
drained call whose future was still pending (queued but never dispatched)
is resolved as cancelled rather than dropped, and no sequence of later
events dispatches anything further — in particular none of the drained
calls. -/
theorem cleanup_drains_cleanly (s : Sched) :
    (cleanup s).1.running = false ∧
      (cleanup s).1.queue = [] ∧
      (∀ c f, (c, f) ∈ s.queue → f = FState.pending →
        (c, FState.cancelled) ∈ (cleanup s).2) ∧
      ∀ es : List SEvent,
        (es.foldl sstep (cleanup s).1).dispatched =
          (cleanup s).1.dispatched := by
  refine ⟨rfl, rfl, ?_, ?_⟩
  · intro c f hmem hp
    subst hp
    exact List.mem_map.mpr ⟨(c, FState.pending), hmem, rfl⟩
  · intro es
    exact (stopped_no_dispatch es (cleanup s).1 rfl rfl).2.2

/-- Witness for C9: one pending queued call is drained as cancelled and a
later dispatch step moves nothing. -/
theorem cleanup_drains_cleanly_witness :
    (cleanup schedWithPending).1.running = false ∧
      (7, FState.cancelled) ∈ (cleanup schedWithPending).2 ∧
      ([SEvent.startDispatch].foldl sstep
          (cleanup schedWithPending).1).dispatched =
        (cleanup schedWithPending).1.dispatched :=
  ⟨(cleanup_drains_cleanly schedWithPending).1,
    (cleanup_drains_cleanly schedWithPending).2.2.1 7 FState.pending
      (by decide) rfl,
    (cleanup_drains_cleanly schedWithPending).2.2.2 [SEvent.startDispatch]⟩

/-- C1 fails as stated: in the all-raising run with maxRetries = 3 the
sleeps performed are 1 s, 2 s and also 4 s after the final attempt, not the
two sleeps 1 s and 2 s alone. -/
theorem retry_exhaustion_extra_sleep_cex :
    (execute_with_retry alwaysRaise ("test_task") 3 initState).sleeps ≠
      [1, 2] := by
  norm_num [execute_with_retry, retryLoop, alwaysRaise, exhaust, addStep]

/-- C1 amended: with maxRetries = 3 and every attempt raising, the
operation is invoked exactly 3 times, the sleeps performed are exactly
2^0 = 1 s, 2^1 = 2 s and additionally 2^2 = 4 s after the third failed
attempt, and a terminal error is then raised whose message references
taskName and whose chained cause is the exception of the last attempt. -/
theorem retry_exhaustion_transport (op : Nat → AttemptOutcome) (tn : String)
    (st : RLState) (e0 e1 e2 : String)
    (h0 : op 0 = AttemptOutcome.exn e0) (h1 : op 1 = AttemptOutcome.exn e1)
    (h2 : op 2 = AttemptOutcome.exn e2) :
    execute_with_retry op tn 3 st =
      ⟨st, RetryResult.raised
          ⟨tn ++ " failed after " ++ toString 3 ++ " attempts", some e2⟩,
        [1, 2, 4], 3⟩ := by
  norm_num [execute_with_retry, retryLoop, h0, h1, h2, exhaust, addStep]

/-- Witness for C1 at the always-raising operation of the test suite. -/
theorem retry_exhaustion_transport_witness :
    execute_with_retry alwaysRaise ("test_task") 3 initState =
      ⟨initState, RetryResult.raised
          ⟨("test_task") ++ " failed after " ++ toString 3 ++ " attempts",
            some ("API Error")⟩, [1, 2, 4], 3⟩ :=
  retry_exhaustion_transport alwaysRaise ("test_task") initState
    ("API Error") ("API Error") ("API Error") rfl rfl rfl

/-- When every remaining attempt yields a 5xx response, the retry loop ends
by returning the response of the last attempt, sleeping 2^attempt seconds
after every attempt and invoking the operation once per unit of budget. -/
theorem retryLoop_server_errors (op : Nat → AttemptOutcome) (tn : String)
    (mr : Nat) :
    ∀ (fuel attempt : Nat) (st : RLState) (lastResp : Option Response),
      0 < fuel →
      (∀ n, n < fuel → ∃ r, op (attempt + n) = AttemptOutcome.resp r ∧
        500 ≤ r.status_code ∧ r.status_code < 600) →
      ∃ r, op (attempt + fuel - 1) = AttemptOutcome.resp r ∧
        (retryLoop op tn mr fuel attempt st none lastResp).result =
          RetryResult.ok r ∧
        (retryLoop op tn mr fuel attempt st none lastResp).sleeps =
          (List.range fuel).map (fun i => (2 : ℚ) ^ (attempt + i)) ∧
        (retryLoop op tn mr fuel attempt st none lastResp).invocations =
          fuel := by
  intro fuel
  induction fuel with
  | zero =>
    intro attempt st lastResp hpos
    exact absurd hpos (lt_irrefl 0)
  | succ k ih =>
    intro attempt st lastResp _ h
    obtain ⟨r0, hop0, hlo, hhi⟩ := h 0 (Nat.succ_pos k)
    rw [Nat.add_zero] at hop0
    have hne : ¬ r0.status_code = 429 := by omega
    have hhr : handle_response st r0 =
        ({ st with backoff_multiplier := 1 }, none) := by
      simp [handle_response, hne]
    have h200 : ¬ (r0.status_code = 200 ∨ r0.status_code = 201) := by omega
    have h5xx : (500 ≤ r0.status_code ∧ r0.status_code < 600) ∨
        r0.status_code = 429 := Or.inl ⟨hlo, hhi⟩
    have hstep : retryLoop op tn mr (k + 1) attempt st none lastResp =
        addStep ((2 : ℚ) ^ attempt)
          (retryLoop op tn mr k (attempt + 1)
            ({ st with backoff_multiplier := 1 }) none (some r0)) := by
      simp only [retryLoop, hop0]
      rw [hhr]
      simp [truthy, h200, h5xx]
    cases Nat.eq_zero_or_pos k with
    | inl hk =>
      subst hk
      refine ⟨r0, by simpa using hop0, ?_, ?_, ?_⟩
      · rw [hstep]
        simp [addStep, retryLoop, exhaust]
      · rw [hstep, show List.range 1 = [0] from rfl]
        simp [addStep, retryLoop, exhaust]
      · rw [hstep]
        simp [addStep, retryLoop, exhaust]
    | inr hk =>
      obtain ⟨r, hopr, hres, hsl, hinv⟩ := ih (attempt + 1)
        ({ st with backoff_multiplier := 1 }) (some r0) hk
        (fun n hn => by
          rw [show attempt + 1 + n = attempt + (n + 1) by omega]
          exact h (n + 1) (by omega))
      refine ⟨r, ?_, ?_, ?_, ?_⟩
      · rw [show attempt + (k + 1) - 1 = attempt + 1 + k - 1 by omega]
        exact hopr
      · rw [hstep]
        simpa [addStep] using hres
      · rw [hstep]
        simp only [addStep]
        rw [hsl, List.range_succ_eq_map]
        have hix : ∀ i : Nat, attempt + 1 + i = attempt + (i + 1) :=
          fun i => by omega
        simp [List.map_map, Function.comp, Nat.succ_eq_add_one, hix]
      · rw [hstep]
        simpa [addStep] using hinv

/-- C2: when every attempt up to maxRetries returns a 5xx response and none
raises, each attempt is followed by a sleep of 2^attempt seconds (the
non-final ones before their retry), and on exhaustion the response of the
last attempt is returned to the caller as an ordinary response value; no
exception is raised. -/
theorem server_errors_surface_last_response (op : Nat → AttemptOutcome)
    (tn : String) (st : RLState) (mr : Nat) (hpos : 0 < mr)
    (h : ∀ n, n < mr → ∃ r, op n = AttemptOutcome.resp r ∧
      500 ≤ r.status_code ∧ r.status_code < 600) :
    ∃ r, op (mr - 1) = AttemptOutcome.resp r ∧
      (execute_with_retry op tn mr st).result = RetryResult.ok r ∧
      (execute_with_retry op tn mr st).sleeps =
        (List.range mr).map (fun i => (2 : ℚ) ^ i) ∧
      (execute_with_retry op tn mr st).invocations = mr := by
  have hx := retryLoop_server_errors op tn mr mr 0 st none hpos
    (fun n hn => by simpa using h n hn)
  simpa [execute_with_retry] using hx

/-- Witness for C2: three attempts all returning a bare 503 end with the
503 returned as an ordinary response, sleeps 1, 2 and 4 s, and three
invocations. -/
theorem server_errors_surface_last_response_witness :
    ∃ r, always503 (3 - 1) = AttemptOutcome.resp r ∧
      (execute_with_retry always503 ("srv") 3 initState).result =
        RetryResult.ok r ∧
      (execute_with_retry always503 ("srv") 3 initState).sleeps =
        (List.range 3).map (fun i => (2 : ℚ) ^ i) ∧
      (execute_with_retry always503 ("srv") 3 initState).invocations = 3 :=
  server_errors_surface_last_response always503 ("srv") initState 3
    (by decide) (fun n hn => ⟨⟨503, none⟩, rfl, by decide, by decide⟩)

end RateLimiterSpec
